import Mathlib

/-!
Shallow embedding of two Terraform provider resource bindings:
the Azure Stream Analytics Job resource reconciler
(src/internal/services/streamanalytics/stream_analytics_job_resource.go)
and the Service Fabric managed cluster acceptance-test harness
(src/internal/services/servicefabricmanaged/service_fabric_managed_cluster_resource_test.go).

Go pointers become Option, Go errors become Option String or an inductive
error type whose constructors mirror the fmt.Errorf wrapping sites, and the
remote management API becomes an explicit record of response functions; each
reconciler entry point returns its result together with the ordered list of
API calls it issued.
-/

/-- HTTP status predicate of utils.ResponseWasNotFound: the response carries
status code 404. -/
def responseWasNotFound (status : Nat) : Bool :=
  status == 404

/-- Go int32 conversion with two-complement wrap-around, as in int32(x). -/
def toInt32 (n : Int) : Int :=
  (n + 2 ^ 31) % 2 ^ 32 - 2 ^ 31

deriving instance DecidableEq for Except

/-- azure.NormalizeLocation collaborator helper: lower-case and strip spaces. -/
def normalizeLocation (s : String) : String :=
  (s.replace " " "").toLower

/-- Structured Resource Identifier of a streaming job: subscription,
resource group and resource name (parse.StreamingJobID result type). -/
structure StreamingJobId where
  subscriptionId : String
  resourceGroup : String
  name : String
deriving DecidableEq, Repr

/-- Canonical string encoding of the identifier, as id.ID() in Go. -/
def StreamingJobId.encode (id : StreamingJobId) : String :=
  "/subscriptions/" ++ id.subscriptionId ++ "/resourceGroups/" ++ id.resourceGroup ++
    "/providers/Microsoft.StreamAnalytics/streamingjobs/" ++ id.name

/-- Split a character list on the slash separator (structural recursion). -/
def splitOnSlash (cs : List Char) : List (List Char) :=
  match cs with
  | [] => [[]]
  | c :: rest =>
    let groups := splitOnSlash rest
    if c = '/' then [] :: groups
    else
      match groups with
      | [] => [[c]]
      | g :: gs => (c :: g) :: gs

/-- The slash-separated segments of a string. -/
def segmentsOf (input : String) : List String :=
  (splitOnSlash input.toList).map fun g => String.mk g

/-- Modelled from the spec: the function parse.StreamingJobID is not under
src/ (only its callers are). Per the spec, the Resource Identifier is a
structured key (subscription, resource group, resource name) with a
canonical string encoding and a parser that rejects malformed strings. -/
def StreamingJobID (input : String) : Except String StreamingJobId :=
  match segmentsOf input with
  | ["", "subscriptions", sub, "resourceGroups", rg, "providers",
      "Microsoft.StreamAnalytics", "streamingjobs", name] =>
    if sub = "" || rg = "" || name = "" then
      .error ("parsing segment of " ++ input ++ ": segment empty")
    else
      .ok ⟨sub, rg, name⟩
  | _ => .error ("parsing " ++ input ++ ": identifier not of the canonical form")

/-- streamanalytics.Identity: the API identity object (all fields pointers). -/
structure Identity where
  type : Option String
  tenantID : Option String
  principalID : Option String
deriving DecidableEq, Repr

/-- streamanalytics.TransformationProperties. -/
structure TransformationProperties where
  streamingUnits : Option Int
  query : Option String
deriving DecidableEq, Repr

/-- streamanalytics.Transformation: a name plus embedded properties pointer. -/
structure Transformation where
  name : Option String
  properties : Option TransformationProperties
deriving DecidableEq, Repr

/-- Promoted field access transformation.StreamingUnits through the embedded
properties pointer (absent properties yield an absent field). -/
def Transformation.streamingUnits (t : Transformation) : Option Int :=
  match t.properties with
  | none => none
  | some p => p.streamingUnits

/-- Promoted field access transformation.Query. -/
def Transformation.query (t : Transformation) : Option String :=
  match t.properties with
  | none => none
  | some p => p.query

/-- streamanalytics.ClusterInfo. -/
structure ClusterInfo where
  id : Option String
deriving DecidableEq, Repr

/-- streamanalytics.StreamingJobProperties, restricted to the fields the
resource touches. -/
structure StreamingJobProperties where
  skuName : String
  compatibilityLevel : String
  eventsLateArrivalMaxDelayInSeconds : Option Int
  eventsOutOfOrderMaxDelayInSeconds : Option Int
  eventsOutOfOrderPolicy : String
  outputErrorPolicy : String
  cluster : Option ClusterInfo
  dataLocale : Option String
  transformation : Option Transformation
  jobID : Option String
deriving DecidableEq, Repr

/-- streamanalytics.StreamingJob: request payload and response body alike. -/
structure StreamingJob where
  id : Option String
  name : Option String
  location : Option String
  properties : Option StreamingJobProperties
  identity : Option Identity
  tags : List (String × String)
deriving DecidableEq, Repr

/-- Promoted access job.Transformation through the embedded properties
pointer. -/
def StreamingJob.transformation (j : StreamingJob) : Option Transformation :=
  match j.properties with
  | none => none
  | some p => p.transformation

/-- One identity block of the Terraform configuration (the type attribute is
required; principal_id and tenant_id are computed and never supplied). -/
structure IdentityBlock where
  type : String
deriving DecidableEq, Repr

/-- expandStreamAnalyticsJobIdentity: reads element 0 of the block list and
builds the API identity from its type entry. Go indexes identity[0]
unconditionally; the empty list, on which Go would panic with an
out-of-range index, is modelled by the none result. -/
def expandStreamAnalyticsJobIdentity (identity : List IdentityBlock) :
    Option Identity :=
  match identity.head? with
  | none => none
  | some b => some { type := some b.type, tenantID := none, principalID := none }

/-- flattenStreamAnalyticsJobIdentity: nil identity flattens to the empty
list; otherwise one map with the three keys, each value defaulting to the
empty string when the pointer is nil. -/
def flattenStreamAnalyticsJobIdentity (identity : Option Identity) :
    List (List (String × String)) :=
  match identity with
  | none => []
  | some i =>
    let t := match i.type with
      | some s => s
      | none => ""
    let tenantId := match i.tenantID with
      | some s => s
      | none => ""
    let principalId := match i.principalID with
      | some s => s
      | none => ""
    [[("type", t), ("tenant_id", tenantId), ("principal_id", principalId)]]

/-- The Terraform ResourceData as the reconciler sees it: the current
attribute values (configuration for create/update, persisted state for
read/delete) plus the persisted identifier string and the new-resource
flag. The identity attribute appears twice: as configuration blocks
(identityBlocks, read through d.GetOk) and as the flattened state value
(identityFlat, written by Read through d.Set). -/
structure ResourceData where
  id : String
  isNew : Bool
  name : String
  resource_group_name : String
  location : String
  stream_analytics_cluster_id : String
  compatibility_level : String
  data_locale : String
  events_late_arrival_max_delay_in_seconds : Int
  events_out_of_order_max_delay_in_seconds : Int
  events_out_of_order_policy : String
  output_error_policy : String
  streaming_units : Int
  transformation_query : String
  identityBlocks : List IdentityBlock
  identityFlat : List (List (String × String))
  job_id : String
  tags : List (String × String)
deriving DecidableEq, Repr

/-- Result of JobsClient.Get: the decoded body, the HTTP status of the
wrapped response, and the transport error (non-nil for any non-2xx). -/
structure GetResult where
  job : StreamingJob
  status : Nat
  err : Option String
deriving Repr

/-- Result of a long-running operation: the error starting it and the error
from future.WaitForCompletionRef. -/
structure LroResult where
  err : Option String
  waitErr : Option String
deriving DecidableEq, Repr

/-- The backing management API as the reconciler observes it: one response
function per client method (JobsClient.Get, JobsClient.CreateOrReplace,
JobsClient.Update, JobsClient.Delete, TransformationsClient.Update). -/
structure Api where
  get : String → String → String → GetResult
  createOrReplace : String → String → StreamingJob → LroResult
  update : String → String → StreamingJob → Option String
  transformationUpdate : String → String → String → Transformation → Option String
  delete : String → String → LroResult

/-- One outbound API call, recorded in the order issued. -/
inductive ApiCall where
  | get (resourceGroup name expand : String)
  | createOrReplace (resourceGroup name : String) (props : StreamingJob)
  | update (resourceGroup name : String) (props : StreamingJob)
  | transformationUpdate (resourceGroup name transformationName : String)
      (t : Transformation)
  | delete (resourceGroup name : String)
deriving DecidableEq, Repr

/-- A call that can change remote state (anything but a Get). -/
def ApiCall.isMutating : ApiCall → Bool
  | .get _ _ _ => false
  | _ => true

/-- Errors of the reconciler; each constructor is one return site of the Go
code, and the constructors carrying a StreamingJobId are exactly the
fmt.Errorf sites that wrap the identifier together with an operation name. -/
inductive JobError where
  | checkingPresence (id : StreamingJobId) (err : String)
  | importAsExists (resourceType existingId : String)
  | creating (id : StreamingJobId) (err : String)
  | waitingForCreation (id : StreamingJobId) (err : String)
  | updating (id : StreamingJobId) (err : String)
  | rawGet (err : String)
  | updatingTransformation (id : StreamingJobId) (err : String)
  | retrieving (id : StreamingJobId) (err : String)
  | deleting (id : StreamingJobId) (err : String)
  | waitingForDeletion (id : StreamingJobId) (err : String)
  | parseError (err : String)
deriving DecidableEq, Repr

/-- True when the error text is wrapped with both the resource identifier
and the name of the failed operation (every fmt.Errorf site of the resource
except the import-conflict, parse and bare-return sites). -/
def JobError.wrappedWithIdAndOp : JobError → Bool
  | .rawGet _ => false
  | .importAsExists _ _ => false
  | .parseError _ => false
  | _ => true

/-- The sequence of d.Set calls of the Read success path: copy the response
body into state. Pointer-valued fields passed straight to d.Set
(data_locale, stream_analytics_cluster_id, transformation_query, job_id)
write the empty string when the pointer is nil; nil-guarded fields keep
their previous value. -/
def readPopulate (d : ResourceData) (id : StreamingJobId) (job : StreamingJob) :
    ResourceData :=
  { d with
    name := id.name,
    resource_group_name := id.resourceGroup,
    location := match job.location with
      | some loc => normalizeLocation loc
      | none => d.location,
    identityFlat := flattenStreamAnalyticsJobIdentity job.identity,
    compatibility_level := match job.properties with
      | some props => props.compatibilityLevel
      | none => d.compatibility_level,
    data_locale := match job.properties with
      | some props => props.dataLocale.getD ""
      | none => d.data_locale,
    events_late_arrival_max_delay_in_seconds := match job.properties with
      | some props =>
        match props.eventsLateArrivalMaxDelayInSeconds with
        | some v => v
        | none => d.events_late_arrival_max_delay_in_seconds
      | none => d.events_late_arrival_max_delay_in_seconds,
    events_out_of_order_max_delay_in_seconds := match job.properties with
      | some props =>
        match props.eventsOutOfOrderMaxDelayInSeconds with
        | some v => v
        | none => d.events_out_of_order_max_delay_in_seconds
      | none => d.events_out_of_order_max_delay_in_seconds,
    stream_analytics_cluster_id := match job.properties with
      | some props =>
        match props.cluster with
        | some cl => cl.id.getD ""
        | none => d.stream_analytics_cluster_id
      | none => d.stream_analytics_cluster_id,
    events_out_of_order_policy := match job.properties with
      | some props => props.eventsOutOfOrderPolicy
      | none => d.events_out_of_order_policy,
    output_error_policy := match job.properties with
      | some props => props.outputErrorPolicy
      | none => d.output_error_policy,
    job_id := match job.properties with
      | some props => props.jobID.getD ""
      | none => d.job_id,
    streaming_units := match job.properties with
      | some props =>
        match props.transformation with
        | some t =>
          match t.streamingUnits with
          | some units => units
          | none => d.streaming_units
        | none => d.streaming_units
      | none => d.streaming_units,
    transformation_query := match job.properties with
      | some props =>
        match props.transformation with
        | some t => t.query.getD ""
        | none => d.transformation_query
      | none => d.transformation_query,
    tags := job.tags }

/-- resourceStreamAnalyticsJobRead. Parses the persisted identifier, fetches
the job with the transformation expanded, treats not-found as success that
clears the identifier, and copies the response into state. -/
def resourceStreamAnalyticsJobRead (api : Api) (d : ResourceData) :
    Except JobError ResourceData × List ApiCall :=
  match StreamingJobID d.id with
  | .error e => (.error (.parseError e), [])
  | .ok id =>
    let resp := api.get id.resourceGroup id.name "transformation"
    let call := ApiCall.get id.resourceGroup id.name "transformation"
    match resp.err with
    | some e =>
      if responseWasNotFound resp.status then
        (.ok { d with id := "" }, [call])
      else
        (.error (.retrieving id e), [call])
    | none =>
      (.ok (readPopulate d id resp.job), [call])

/-- The transformation payload built inline in CreateUpdate: name main,
the configured streaming units and query. -/
def buildTransformation (d : ResourceData) : Transformation :=
  { name := some "main",
    properties := some
      { streamingUnits := some (toInt32 d.streaming_units),
        query := some d.transformation_query } }

/-- The StreamingJob payload built by CreateUpdate from the configuration
(before the create branch grafts the transformation in). -/
def buildProps (id : StreamingJobId) (d : ResourceData) : StreamingJob :=
  { id := none,
    name := some id.name,
    location := some (normalizeLocation d.location),
    properties := some
      { skuName := "Standard",
        compatibilityLevel := d.compatibility_level,
        eventsLateArrivalMaxDelayInSeconds :=
          some (toInt32 d.events_late_arrival_max_delay_in_seconds),
        eventsOutOfOrderMaxDelayInSeconds :=
          some (toInt32 d.events_out_of_order_max_delay_in_seconds),
        eventsOutOfOrderPolicy := d.events_out_of_order_policy,
        outputErrorPolicy := d.output_error_policy,
        cluster :=
          if d.stream_analytics_cluster_id != "" then
            some { id := some d.stream_analytics_cluster_id }
          else
            some { id := none },
        dataLocale :=
          if d.data_locale != "" then some d.data_locale else none,
        transformation := none,
        jobID := none },
    identity :=
      if d.identityBlocks.isEmpty then none
      else expandStreamAnalyticsJobIdentity d.identityBlocks,
    tags := d.tags }

/-- Graft the inline transformation into the payload, as the assignment
props.StreamingJobProperties.Transformation in the create branch. -/
def StreamingJob.withTransformation (j : StreamingJob) (t : Transformation) :
    StreamingJob :=
  { j with properties := j.properties.map fun p => { p with transformation := some t } }

/-- The existence probe of the create branch: Get with empty expansion; a
non-404 transport error fails the probe, otherwise a non-empty ID on the
body is an import-as-exists conflict. -/
def probeExisting (api : Api) (id : StreamingJobId) : Except JobError Unit :=
  let existing := api.get id.resourceGroup id.name ""
  if existing.err.isSome && !responseWasNotFound existing.status then
    .error (.checkingPresence id (existing.err.getD ""))
  else if existing.job.id.getD "" != "" then
    .error (.importAsExists "azurerm_stream_analytics_job" (existing.job.id.getD ""))
  else
    .ok ()

/-- Prefix a list of already-issued calls onto the result of a later phase. -/
def withCalls (pre : List ApiCall)
    (r : Except JobError ResourceData × List ApiCall) :
    Except JobError ResourceData × List ApiCall :=
  (r.1, pre ++ r.2)

/-- The create branch of CreateUpdate: probe, then CreateOrReplace with the
transformation embedded inline, wait for completion, set the identifier and
re-read. -/
def createPath (api : Api) (id : StreamingJobId) (d : ResourceData)
    (props : StreamingJob) (transformation : Transformation) :
    Except JobError ResourceData × List ApiCall :=
  let probeCall := ApiCall.get id.resourceGroup id.name ""
  match probeExisting api id with
  | .error e => (.error e, [probeCall])
  | .ok _ =>
    let payload := props.withTransformation transformation
    let lro := api.createOrReplace id.resourceGroup id.name payload
    let calls := [probeCall, ApiCall.createOrReplace id.resourceGroup id.name payload]
    match lro.err with
    | some e => (.error (.creating id e), calls)
    | none =>
      match lro.waitErr with
      | some e => (.error (.waitingForCreation id e), calls)
      | none =>
        withCalls calls
          (resourceStreamAnalyticsJobRead api { d with id := id.encode })

/-- The update branch of CreateUpdate: Update the parent, re-read with the
transformation expanded (a failure here is returned bare, without any
wrapping), then update the transformation sub-resource when present, and
finally re-read state. The dereference of the transformation name pointer
is modelled with an empty-string default. -/
def updatePath (api : Api) (id : StreamingJobId) (d : ResourceData)
    (props : StreamingJob) (transformation : Transformation) :
    Except JobError ResourceData × List ApiCall :=
  let updCall := ApiCall.update id.resourceGroup id.name props
  match api.update id.resourceGroup id.name props with
  | some e => (.error (.updating id e), [updCall])
  | none =>
    let getRes := api.get id.resourceGroup id.name "transformation"
    let calls := [updCall, ApiCall.get id.resourceGroup id.name "transformation"]
    match getRes.err with
    | some e => (.error (.rawGet e), calls)
    | none =>
      match getRes.job.transformation with
      | none => withCalls calls (resourceStreamAnalyticsJobRead api d)
      | some readTransformation =>
        let tname := readTransformation.name.getD ""
        let tCall := ApiCall.transformationUpdate id.resourceGroup id.name tname
          transformation
        match api.transformationUpdate id.resourceGroup id.name tname
            transformation with
        | some e => (.error (.updatingTransformation id e), calls ++ [tCall])
        | none => withCalls (calls ++ [tCall]) (resourceStreamAnalyticsJobRead api d)

/-- resourceStreamAnalyticsJobCreateUpdate: build the identifier from the
configuration, probe-and-create for a new resource, two-phase update
otherwise. -/
def resourceStreamAnalyticsJobCreateUpdate (api : Api) (subscriptionId : String)
    (d : ResourceData) : Except JobError ResourceData × List ApiCall :=
  let id : StreamingJobId := ⟨subscriptionId, d.resource_group_name, d.name⟩
  let transformation := buildTransformation d
  let props := buildProps id d
  if d.isNew then
    createPath api id d props transformation
  else
    updatePath api id d props transformation

/-- resourceStreamAnalyticsJobDelete: parse the identifier, issue the delete
and wait for the long-running operation. -/
def resourceStreamAnalyticsJobDelete (api : Api) (d : ResourceData) :
    Except JobError Unit × List ApiCall :=
  match StreamingJobID d.id with
  | .error e => (.error (.parseError e), [])
  | .ok id =>
    let call := ApiCall.delete id.resourceGroup id.name
    let lro := api.delete id.resourceGroup id.name
    match lro.err with
    | some e => (.error (.deleting id e), [call])
    | none =>
      match lro.waitErr with
      | some e => (.error (.waitingForDeletion id e), [call])
      | none => (.ok (), [call])

/-- The import validator wired in resourceStreamAnalyticsJob: accept exactly
the identifier strings the parser accepts. -/
def importerValidate (id : String) : Option String :=
  match StreamingJobID id with
  | .ok _ => none
  | .error e => some e

/-- Structured identifier of a Service Fabric managed cluster
(managedcluster.ManagedClusterId). -/
structure ManagedClusterId where
  subscriptionId : String
  resourceGroup : String
  name : String
deriving DecidableEq, Repr

/-- Modelled from the spec: managedcluster.ParseManagedClusterID is not
under src/ (only its caller, the Exists check, is). Per the spec the
identifier is a structured key with a canonical encoding and a parser that
rejects malformed strings. -/
def ParseManagedClusterID (input : String) : Except String ManagedClusterId :=
  match segmentsOf input with
  | ["", "subscriptions", sub, "resourceGroups", rg, "providers",
      "Microsoft.ServiceFabric", "managedClusters", name] =>
    if sub = "" || rg = "" || name = "" then
      .error ("parsing segment of " ++ input ++ ": segment empty")
    else
      .ok ⟨sub, rg, name⟩
  | _ => .error ("parsing " ++ input ++ ": identifier not of the canonical form")

/-- Result of ManagedClusterClient.Get: the HTTP status of the wrapped
response and the transport error. -/
structure ClusterGetResult where
  status : Nat
  err : Option String
deriving DecidableEq, Repr

/-- The managed-cluster API as the Exists check observes it. -/
structure ClusterApi where
  get : ManagedClusterId → ClusterGetResult

/-- ClusterResource.Exists: parse the persisted identifier, Get the cluster;
a not-found error maps to false, any other error propagates, and a
successful response reports whether the status code is exactly 200. -/
def ClusterResource.Exists (api : ClusterApi) (stateId : String) :
    Except String Bool :=
  match ParseManagedClusterID stateId with
  | .error e => .error ("while parsing resource ID: " ++ e)
  | .ok resourceID =>
    let resp := api.get resourceID
    match resp.err with
    | some e =>
      if responseWasNotFound resp.status then
        .ok false
      else
        .error ("while checking for cluster existence: " ++ e)
    | none => .ok (resp.status == 200)

/-- One node_type block of the cluster test configuration, with the fixed
field values the nodeType fixture generator hard-codes. -/
structure NodeType where
  data_disk_size_gb : Int
  name : String
  primary : Bool
  application_port_range : String
  ephemeral_port_range : String
  vm_size : String
  vm_image_publisher : String
  vm_image_sku : String
  vm_image_offer : String
  vm_image_version : String
  vm_instance_count : Int
deriving DecidableEq, Repr

/-- ClusterResource.nodeType: the node_type block the test generates for a
given name, primary flag, disk size and instance count. -/
def nodeType (name : String) (primary : Bool) (diskSize instanceCount : Int) :
    NodeType :=
  { data_disk_size_gb := diskSize,
    name := name,
    primary := primary,
    application_port_range := "7000-9000",
    ephemeral_port_range := "10000-20000",
    vm_size := "Standard_DS2_v2",
    vm_image_publisher := "MicrosoftWindowsServer",
    vm_image_sku := "2016-Datacenter",
    vm_image_offer := "WindowsServer",
    vm_image_version := "latest",
    vm_instance_count := instanceCount }

/-- The lb_rule block of the basic cluster fixture. -/
structure LbRule where
  backend_port : Int
  frontend_port : Int
  probe_protocol : String
  protocol : String
  probe_request_path : String
deriving DecidableEq, Repr

/-- The cluster configuration of the basic fixture: fixed attribute values
plus the supplied node_type blocks. -/
structure ClusterConfig where
  name : String
  sku : String
  username : String
  password : String
  dns_service_enabled : Bool
  client_connection_port : Int
  http_gateway_port : Int
  lb_rule : List LbRule
  node_type : List NodeType
  tags : List (String × String)
deriving DecidableEq, Repr

/-- ClusterResource.basic: the configuration the test applies, parametrised
only by the node_type blocks. -/
def basic (nodeTypes : List NodeType) : ClusterConfig :=
  { name := "testacc-sfmc",
    sku := "Standard",
    username := "testUser",
    password := "NotV3ryS3cur3P@$$w0rd",
    dns_service_enabled := true,
    client_connection_port := 12345,
    http_gateway_port := 23456,
    lb_rule := [{ backend_port := 8000, frontend_port := 443,
                  probe_protocol := "http", protocol := "tcp",
                  probe_request_path := "/" }],
    node_type := nodeTypes,
    tags := [("Test", "value")] }

/-- Modelled from the spec: the managed-cluster resource implementation is
not under src/ (only its acceptance test is). Per the spec, a successful
apply makes the remote state equal the supplied configuration for every
non-computed field, and an update changes only the fields supplied. -/
def applyConfig (_previous : Option ClusterConfig) (config : ClusterConfig) :
    ClusterConfig :=
  config

/-- The four states reached by the lifecycle scenario of
TestAccServiceFabricManagedCluster_full: one entry, two entries, back to one
entry, then the same entry with data_disk_size_gb raised to 140. -/
def scenarioStates : List ClusterConfig :=
  let s1 := applyConfig none (basic [nodeType "test1" true 130 5])
  let s2 := applyConfig (some s1)
    (basic [nodeType "test1" true 130 5, nodeType "test2" false 130 5])
  let s3 := applyConfig (some s2) (basic [nodeType "test1" true 130 5])
  let s4 := applyConfig (some s3) (basic [nodeType "test1" true 140 5])
  [s1, s2, s3, s4]

/-- C10: flattenStreamAnalyticsJobIdentity is total: a nil identity flattens
to the empty list, and otherwise the result is exactly one map holding
exactly the keys type, tenant_id and principal_id, each value equal to the
corresponding pointer content or the empty string when that pointer is nil. -/
theorem flatten_identity_total_and_exact :
    flattenStreamAnalyticsJobIdentity none = [] ∧
    ∀ i : Identity,
      (flattenStreamAnalyticsJobIdentity (some i)).length = 1 ∧
      ∀ m, (flattenStreamAnalyticsJobIdentity (some i)).head? = some m →
        m.map Prod.fst = ["type", "tenant_id", "principal_id"] ∧
        m.lookup "type" = some (i.type.getD "") ∧
        m.lookup "tenant_id" = some (i.tenantID.getD "") ∧
        m.lookup "principal_id" = some (i.principalID.getD "") := by
  refine ⟨rfl, fun i => ?_⟩
  obtain ⟨t, tid, pid⟩ := i
  cases t <;> cases tid <;> cases pid <;>
    simp [flattenStreamAnalyticsJobIdentity, List.lookup]

/-- Witness for flatten_identity_total_and_exact at a concrete identity. -/
theorem flatten_identity_total_and_exact_witness :
    ([("type", "SystemAssigned"), ("tenant_id", ""), ("principal_id", "pid-1")]
        : List (String × String)).map Prod.fst =
      ["type", "tenant_id", "principal_id"] ∧
    ([("type", "SystemAssigned"), ("tenant_id", ""), ("principal_id", "pid-1")]
        : List (String × String)).lookup "type" = some "SystemAssigned" ∧
    ([("type", "SystemAssigned"), ("tenant_id", ""), ("principal_id", "pid-1")]
        : List (String × String)).lookup "tenant_id" = some "" ∧
    ([("type", "SystemAssigned"), ("tenant_id", ""), ("principal_id", "pid-1")]
        : List (String × String)).lookup "principal_id" = some "pid-1" :=
  (flatten_identity_total_and_exact.2
    ⟨some "SystemAssigned", none, some "pid-1"⟩).2 _ rfl

/-- C9: on a non-empty block list — guaranteed at the only call site, which
guards the call with the GetOk result on the identity attribute — the
out-of-bounds branch of expandStreamAnalyticsJobIdentity is unreachable and
the result is a present Identity whose Type equals the type entry of the
first block; accordingly the payload built by CreateUpdate carries a
present identity whenever the blocks are non-empty. -/
theorem expand_identity_nonempty_safe :
    (∀ l : List IdentityBlock, l ≠ [] →
      ∃ i, expandStreamAnalyticsJobIdentity l = some i ∧
        ∀ b, l.head? = some b → i.type = some b.type) ∧
    (∀ (id : StreamingJobId) (d : ResourceData), d.identityBlocks ≠ [] →
      (buildProps id d).identity =
        expandStreamAnalyticsJobIdentity d.identityBlocks ∧
      ((buildProps id d).identity).isSome = true) := by
  constructor
  · intro l hl
    match l with
    | [] => exact absurd rfl hl
    | b :: rest =>
      exact ⟨⟨some b.type, none, none⟩, rfl, by
        intro b0 hb0
        simp only [List.head?] at hb0
        cases hb0
        rfl⟩
  · intro id d hd
    have hne : d.identityBlocks.isEmpty = false := by
      cases h : d.identityBlocks with
      | nil => exact absurd h hd
      | cons b rest => simp [h]
    constructor
    · simp [buildProps, hne]
    · cases h : d.identityBlocks with
      | nil => exact absurd h hd
      | cons b rest =>
        simp [buildProps, hne, h, expandStreamAnalyticsJobIdentity]

/-- Witness for expand_identity_nonempty_safe at a one-block list. -/
theorem expand_identity_nonempty_safe_witness :
    (∃ i, expandStreamAnalyticsJobIdentity [⟨"SystemAssigned"⟩] = some i ∧
      ∀ b, ([(⟨"SystemAssigned"⟩ : IdentityBlock)]).head? = some b →
        i.type = some b.type) :=
  expand_identity_nonempty_safe.1 [⟨"SystemAssigned"⟩] (by simp)

/-- Index into the lifecycle scenario, defaulting to the empty fixture. -/
def scenarioStateAt (n : Nat) : ClusterConfig :=
  scenarioStates.getD n (basic [])

/-- C8: in the node_type lifecycle scenario (one entry, two entries, back to
one entry, then raising data_disk_size_gb on the remaining entry), each step
leaves the entry count and every other field exactly as the supplied
configuration: growing keeps the first entry untouched, shrinking restores
the first state, and the final step changes only data_disk_size_gb. -/
theorem cluster_lifecycle_frame :
    scenarioStates.map (fun s => s.node_type.length) = [1, 2, 1, 1] ∧
    scenarioStates.map (fun s => s.node_type.map NodeType.name) =
      [["test1"], ["test1", "test2"], ["test1"], ["test1"]] ∧
    (scenarioStateAt 1).node_type.head? = (scenarioStateAt 0).node_type.head? ∧
    scenarioStateAt 2 = scenarioStateAt 0 ∧
    (scenarioStateAt 3).node_type.map NodeType.data_disk_size_gb = [140] ∧
    (scenarioStateAt 3).node_type.map
        (fun n => { n with data_disk_size_gb := 130 }) =
      (scenarioStateAt 2).node_type ∧
    { scenarioStateAt 3 with node_type := (scenarioStateAt 2).node_type } =
      scenarioStateAt 2 := by
  refine ⟨rfl, ?_, rfl, ?_, rfl, ?_, ?_⟩ <;> decide

/-- A stub managed-cluster API answering every Get with status 202 and no
transport error. -/
def clusterApi202 : ClusterApi :=
  ⟨fun _ => ⟨202, none⟩⟩

/-- A well-formed managed-cluster identifier string. -/
def clusterIdString : String :=
  "/subscriptions/sub1/resourceGroups/rg1/providers/Microsoft.ServiceFabric/managedClusters/cluster1"

/-- C4 counterexample: a 2xx response (status 202, no transport error) makes
Exists report false, not true — the code compares the status against 200
exactly. -/
theorem exists_202_yields_false :
    ClusterResource.Exists clusterApi202 clusterIdString = .ok false ∧
    ClusterResource.Exists clusterApi202 clusterIdString ≠ .ok true ∧
    200 ≤ 202 ∧ 202 < 300 := by
  refine ⟨by decide, by decide, by norm_num, by norm_num⟩

/-- C4 amended: for every Exists query on a parseable identifier, a
not-found error yields false, any other transport error yields an error,
and an error-free response yields true exactly when the status is 200. -/
theorem exists_response_mapping (api : ClusterApi) (sid : String)
    (rid : ManagedClusterId) (hp : ParseManagedClusterID sid = .ok rid) :
    (∀ e, (api.get rid).err = some e →
      ((api.get rid).status = 404 →
        ClusterResource.Exists api sid = .ok false) ∧
      ((api.get rid).status ≠ 404 →
        ClusterResource.Exists api sid =
          .error ("while checking for cluster existence: " ++ e))) ∧
    ((api.get rid).err = none →
      ClusterResource.Exists api sid = .ok ((api.get rid).status == 200)) := by
  unfold ClusterResource.Exists
  rw [hp]
  constructor
  · intro e he
    constructor
    · intro h404
      simp [he, responseWasNotFound, h404]
    · intro h404
      simp only [he, responseWasNotFound]
      rw [if_neg]
      simp only [beq_iff_eq]
      exact h404
  · intro he
    simp [he]

/-- Witness for exists_response_mapping: a not-found answer maps to false. -/
theorem exists_response_mapping_witness :
    ClusterResource.Exists ⟨fun _ => ⟨404, some "not found"⟩⟩ clusterIdString =
      .ok false :=
  (((exists_response_mapping ⟨fun _ => ⟨404, some "not found"⟩⟩ clusterIdString
    ⟨"sub1", "rg1", "cluster1"⟩ (by decide)).1 "not found" rfl).1 rfl)

/-- A response body with every field absent. -/
def emptyJob : StreamingJob :=
  { id := none, name := none, location := none, properties := none,
    identity := none, tags := [] }

/-- A stub API answering every call successfully with an empty body. -/
def apiStub : Api :=
  { get := fun _ _ _ => ⟨emptyJob, 200, none⟩,
    createOrReplace := fun _ _ _ => ⟨none, none⟩,
    update := fun _ _ _ => none,
    transformationUpdate := fun _ _ _ _ => none,
    delete := fun _ _ => ⟨none, none⟩ }

/-- A baseline ResourceData holding persisted state. -/
def baseData : ResourceData :=
  { id := "/subscriptions/sub1/resourceGroups/rg1/providers/Microsoft.StreamAnalytics/streamingjobs/job1",
    isNew := false,
    name := "job1",
    resource_group_name := "rg1",
    location := "westeurope",
    stream_analytics_cluster_id := "",
    compatibility_level := "1.0",
    data_locale := "en-US",
    events_late_arrival_max_delay_in_seconds := 5,
    events_out_of_order_max_delay_in_seconds := 0,
    events_out_of_order_policy := "Adjust",
    output_error_policy := "Drop",
    streaming_units := 3,
    transformation_query := "SELECT 1",
    identityBlocks := [],
    identityFlat := [],
    job_id := "jid-1",
    tags := [("env", "test")] }

/-- C7: a malformed identifier string is rejected by the parser, and Read,
Delete and the import validator all fail with the parse error while issuing
no API call at all. -/
theorem malformed_id_rejected_before_network (api : Api) (d : ResourceData)
    (e : String) (hp : StreamingJobID d.id = .error e) :
    resourceStreamAnalyticsJobRead api d = (.error (.parseError e), []) ∧
    resourceStreamAnalyticsJobDelete api d = (.error (.parseError e), []) ∧
    importerValidate d.id = some e := by
  refine ⟨?_, ?_, ?_⟩
  · unfold resourceStreamAnalyticsJobRead
    rw [hp]
  · unfold resourceStreamAnalyticsJobDelete
    rw [hp]
  · unfold importerValidate
    rw [hp]

/-- Witness for malformed_id_rejected_before_network on the string bogus. -/
theorem malformed_id_rejected_before_network_witness :
    resourceStreamAnalyticsJobRead apiStub { baseData with id := "bogus" } =
      (.error (.parseError
        "parsing bogus: identifier not of the canonical form"), []) ∧
    resourceStreamAnalyticsJobDelete apiStub { baseData with id := "bogus" } =
      (.error (.parseError
        "parsing bogus: identifier not of the canonical form"), []) ∧
    importerValidate "bogus" =
      some "parsing bogus: identifier not of the canonical form" :=
  malformed_id_rejected_before_network apiStub { baseData with id := "bogus" }
    "parsing bogus: identifier not of the canonical form" (by decide)

/-- C3: when the backing API reports an error on Read, a not-found status
makes Read succeed with the persisted identifier cleared, and any other
status makes Read fail with the wrapped retrieval error; one Get is issued
either way. -/
theorem read_not_found_clears_state (api : Api) (d : ResourceData)
    (id : StreamingJobId) (m : String)
    (hp : StreamingJobID d.id = .ok id)
    (he : (api.get id.resourceGroup id.name "transformation").err = some m) :
    ((api.get id.resourceGroup id.name "transformation").status = 404 →
      resourceStreamAnalyticsJobRead api d =
        (.ok { d with id := "" },
         [.get id.resourceGroup id.name "transformation"])) ∧
    ((api.get id.resourceGroup id.name "transformation").status ≠ 404 →
      resourceStreamAnalyticsJobRead api d =
        (.error (.retrieving id m),
         [.get id.resourceGroup id.name "transformation"])) := by
  constructor <;> intro h <;> unfold resourceStreamAnalyticsJobRead <;>
    rw [hp] <;> simp [he, responseWasNotFound, h]

/-- A stub API whose Get always reports not-found. -/
def api404 : Api :=
  { apiStub with get := fun _ _ _ => ⟨emptyJob, 404, some "not found"⟩ }

/-- Witness for read_not_found_clears_state on the not-found stub. -/
theorem read_not_found_clears_state_witness :
    resourceStreamAnalyticsJobRead api404 baseData =
      (.ok { baseData with id := "" }, [.get "rg1" "job1" "transformation"]) :=
  (read_not_found_clears_state api404 baseData ⟨"sub1", "rg1", "job1"⟩
    "not found" (by decide) rfl).1 rfl

/-- A response body whose optional data_locale is absent while the rest of
the properties are present. -/
def jobDataLocaleAbsent : StreamingJob :=
  { emptyJob with
    location := some "westeurope",
    properties := some
      { skuName := "Standard",
        compatibilityLevel := "1.0",
        eventsLateArrivalMaxDelayInSeconds := some 5,
        eventsOutOfOrderMaxDelayInSeconds := some 0,
        eventsOutOfOrderPolicy := "Adjust",
        outputErrorPolicy := "Drop",
        cluster := none,
        dataLocale := none,
        transformation := none,
        jobID := some "jid-1" } }

/-- A stub API whose Get succeeds with the data_locale-free body. -/
def apiDataLocaleAbsent : Api :=
  { apiStub with get := fun _ _ _ => ⟨jobDataLocaleAbsent, 200, none⟩ }

/-- C5 counterexample: data_locale is an optional, non-nullable attribute,
yet when it is absent in the response the successful Read overwrites the
previously known value en-US with the empty string. -/
theorem read_zeroes_absent_data_locale :
    (resourceStreamAnalyticsJobRead apiDataLocaleAbsent baseData).1.map
      ResourceData.data_locale = Except.ok "" ∧
    baseData.data_locale = "en-US" := by
  constructor <;> decide

/-- C5 amended: on a successful Read the state is populated from the
response; nil-guarded fields (location, the two event delays, the cluster
identifier, streaming units) retain the prior value when absent, while
compatibility_level, data_locale, the two policies, job_id and
transformation_query are written unconditionally, defaulting to the empty
string when the corresponding pointer is absent. -/
theorem read_population_and_retention (api : Api) (d : ResourceData)
    (id : StreamingJobId) (hp : StreamingJobID d.id = .ok id)
    (hok : (api.get id.resourceGroup id.name "transformation").err = none) :
    resourceStreamAnalyticsJobRead api d =
      (.ok (readPopulate d id
        (api.get id.resourceGroup id.name "transformation").job),
       [.get id.resourceGroup id.name "transformation"]) ∧
    ∀ (d0 : ResourceData) (job : StreamingJob),
      (readPopulate d0 id job).name = id.name ∧
      (readPopulate d0 id job).resource_group_name = id.resourceGroup ∧
      (readPopulate d0 id job).identityFlat =
        flattenStreamAnalyticsJobIdentity job.identity ∧
      (readPopulate d0 id job).tags = job.tags ∧
      (readPopulate d0 id job).id = d0.id ∧
      (job.location = none → (readPopulate d0 id job).location = d0.location) ∧
      (∀ loc, job.location = some loc →
        (readPopulate d0 id job).location = normalizeLocation loc) ∧
      (job.properties = none →
        (readPopulate d0 id job).compatibility_level = d0.compatibility_level ∧
        (readPopulate d0 id job).data_locale = d0.data_locale ∧
        (readPopulate d0 id job).events_late_arrival_max_delay_in_seconds =
          d0.events_late_arrival_max_delay_in_seconds ∧
        (readPopulate d0 id job).events_out_of_order_max_delay_in_seconds =
          d0.events_out_of_order_max_delay_in_seconds ∧
        (readPopulate d0 id job).stream_analytics_cluster_id =
          d0.stream_analytics_cluster_id ∧
        (readPopulate d0 id job).events_out_of_order_policy =
          d0.events_out_of_order_policy ∧
        (readPopulate d0 id job).output_error_policy = d0.output_error_policy ∧
        (readPopulate d0 id job).job_id = d0.job_id ∧
        (readPopulate d0 id job).streaming_units = d0.streaming_units ∧
        (readPopulate d0 id job).transformation_query =
          d0.transformation_query) ∧
      (∀ p, job.properties = some p →
        (readPopulate d0 id job).compatibility_level = p.compatibilityLevel ∧
        (readPopulate d0 id job).data_locale = p.dataLocale.getD "" ∧
        (readPopulate d0 id job).events_out_of_order_policy =
          p.eventsOutOfOrderPolicy ∧
        (readPopulate d0 id job).output_error_policy = p.outputErrorPolicy ∧
        (readPopulate d0 id job).job_id = p.jobID.getD "" ∧
        (p.eventsLateArrivalMaxDelayInSeconds = none →
          (readPopulate d0 id job).events_late_arrival_max_delay_in_seconds =
            d0.events_late_arrival_max_delay_in_seconds) ∧
        (∀ v, p.eventsLateArrivalMaxDelayInSeconds = some v →
          (readPopulate d0 id job).events_late_arrival_max_delay_in_seconds = v) ∧
        (p.eventsOutOfOrderMaxDelayInSeconds = none →
          (readPopulate d0 id job).events_out_of_order_max_delay_in_seconds =
            d0.events_out_of_order_max_delay_in_seconds) ∧
        (∀ v, p.eventsOutOfOrderMaxDelayInSeconds = some v →
          (readPopulate d0 id job).events_out_of_order_max_delay_in_seconds = v) ∧
        (p.cluster = none →
          (readPopulate d0 id job).stream_analytics_cluster_id =
            d0.stream_analytics_cluster_id) ∧
        (∀ cl, p.cluster = some cl →
          (readPopulate d0 id job).stream_analytics_cluster_id = cl.id.getD "") ∧
        (p.transformation = none →
          (readPopulate d0 id job).streaming_units = d0.streaming_units ∧
          (readPopulate d0 id job).transformation_query =
            d0.transformation_query) ∧
        (∀ t, p.transformation = some t →
          (t.streamingUnits = none →
            (readPopulate d0 id job).streaming_units = d0.streaming_units) ∧
          (∀ u, t.streamingUnits = some u →
            (readPopulate d0 id job).streaming_units = u) ∧
          (readPopulate d0 id job).transformation_query = t.query.getD "")) := by
  constructor
  · unfold resourceStreamAnalyticsJobRead
    rw [hp]
    simp [hok]
  · intro d0 job
    refine ⟨by simp [readPopulate], by simp [readPopulate],
      by simp [readPopulate], by simp [readPopulate], by simp [readPopulate],
      ?_, ?_, ?_, ?_⟩
    · intro h
      simp [readPopulate, h]
    · intro loc h
      simp [readPopulate, h]
    · intro h
      simp [readPopulate, h]
    · intro p h
      refine ⟨by simp [readPopulate, h], by simp [readPopulate, h],
        by simp [readPopulate, h], by simp [readPopulate, h],
        by simp [readPopulate, h], ?_, ?_, ?_, ?_, ?_, ?_, ?_, ?_⟩
      · intro h2
        simp [readPopulate, h, h2]
      · intro v h2
        simp [readPopulate, h, h2]
      · intro h2
        simp [readPopulate, h, h2]
      · intro v h2
        simp [readPopulate, h, h2]
      · intro h2
        simp [readPopulate, h, h2]
      · intro cl h2
        simp [readPopulate, h, h2]
      · intro h2
        simp [readPopulate, h, h2]
      · intro t ht
        refine ⟨?_, ?_, by simp [readPopulate, h, ht]⟩
        · intro h2
          simp [readPopulate, h, ht, h2]
        · intro u h2
          simp [readPopulate, h, ht, h2]

/-- Every error of the Read entry point is a parse error or the wrapped
retrieval error. -/
theorem read_error_cases (api : Api) (d : ResourceData) (e : JobError)
    (h : (resourceStreamAnalyticsJobRead api d).1 = .error e) :
    (∃ m, e = .parseError m) ∨ ∃ i m, e = .retrieving i m := by
  unfold resourceStreamAnalyticsJobRead at h
  rcases hp : StreamingJobID d.id with m0 | id0 <;> rw [hp] at h
  · simp at h
    exact Or.inl ⟨m0, h.symm⟩
  · rcases herr : (api.get id0.resourceGroup id0.name "transformation").err
      with _ | m <;> simp [herr] at h
    rcases h404 : responseWasNotFound
        (api.get id0.resourceGroup id0.name "transformation").status
      with _ | _ <;> simp [h404] at h
    exact Or.inr ⟨id0, m, h.symm⟩

/-- Every error of the existence probe is the wrapped presence-check error
or the import-as-exists conflict. -/
theorem probe_error_cases (api : Api) (id : StreamingJobId) (e : JobError)
    (h : probeExisting api id = .error e) :
    (∃ m, e = .checkingPresence id m) ∨ ∃ t i, e = .importAsExists t i := by
  unfold probeExisting at h
  dsimp only [] at h
  split at h
  · simp at h
    exact Or.inl ⟨_, h.symm⟩
  · split at h
    · simp at h
      exact Or.inr ⟨_, _, h.symm⟩
    · simp at h

/-- The create branch never returns the bare readback error. -/
theorem createPath_no_rawGet (api : Api) (id : StreamingJobId)
    (d : ResourceData) (props : StreamingJob) (t : Transformation)
    (m : String) : (createPath api id d props t).1 ≠ .error (.rawGet m) := by
  intro h
  unfold createPath at h
  rcases hpr : probeExisting api id with e0 | u <;> rw [hpr] at h
  · simp at h
    rcases probe_error_cases api id e0 hpr with ⟨m0, hm⟩ | ⟨t0, i0, hm⟩ <;>
      simp [hm] at h
  · rcases hcr : (api.createOrReplace id.resourceGroup id.name
        (props.withTransformation t)).err with _ | m1 <;> simp [hcr] at h
    · rcases hw : (api.createOrReplace id.resourceGroup id.name
          (props.withTransformation t)).waitErr with _ | m2 <;> simp [hw] at h
      · rcases read_error_cases api { d with id := id.encode } _ (by
            simpa [withCalls] using h) with ⟨m0, hm⟩ | ⟨i0, m0, hm⟩ <;>
          simp at hm

/-- A bare (unwrapped) error of the update branch comes exactly from the
readback Get, after the parent update succeeded. -/
theorem updatePath_rawGet_source (api : Api) (id : StreamingJobId)
    (d : ResourceData) (props : StreamingJob) (t : Transformation) (m : String)
    (h : (updatePath api id d props t).1 = .error (.rawGet m)) :
    api.update id.resourceGroup id.name props = none ∧
    (api.get id.resourceGroup id.name "transformation").err = some m := by
  unfold updatePath at h
  rcases hu : api.update id.resourceGroup id.name props with _ | m1 <;>
    rw [hu] at h <;> simp at h
  · rcases hg : (api.get id.resourceGroup id.name "transformation").err
      with _ | m2 <;> simp [hg] at h
    · rcases ht : (api.get id.resourceGroup id.name "transformation").job.transformation
        with _ | rt <;> simp [ht] at h
      · rcases read_error_cases api d _ (by simpa [withCalls] using h) with
          ⟨m0, hm⟩ | ⟨i0, m0, hm⟩ <;> simp at hm
      · rcases htu : api.transformationUpdate id.resourceGroup id.name
            (rt.name.getD "") t with _ | m3 <;> simp [htu] at h
        rcases read_error_cases api d _ (by simpa [withCalls] using h) with
          ⟨m0, hm⟩ | ⟨i0, m0, hm⟩ <;> simp at hm
    · exact ⟨rfl, by simp [h]⟩

/-- A stub API whose Get always fails with a non-404 error while every
mutating call succeeds. -/
def apiReadbackFails : Api :=
  { apiStub with get := fun _ _ _ => ⟨emptyJob, 500, some "boom"⟩ }

/-- C6 counterexample: when the readback Get between the parent update and
the transformation update fails, the update path returns the raw API error
with neither the resource identifier nor an operation name attached. -/
theorem update_readback_error_unwrapped :
    (resourceStreamAnalyticsJobCreateUpdate apiReadbackFails "sub1"
      baseData).1 = .error (.rawGet "boom") ∧
    (JobError.rawGet "boom").wrappedWithIdAndOp = false := by
  constructor <;> decide

/-- C6 amended: every API error is propagated, and every propagated error
is wrapped with the resource identifier and the operation name except the
readback Get inside the update path, whose error is returned bare; in
particular a failed parent update propagates as the wrapped updating error,
and Delete and Read only ever return wrapped errors or a pre-network parse
error. -/
theorem api_errors_wrapped_except_readback (api : Api) (sub : String)
    (d : ResourceData) :
    (∀ m, (resourceStreamAnalyticsJobCreateUpdate api sub d).1 =
        .error (.rawGet m) →
      d.isNew = false ∧
      api.update d.resource_group_name d.name
        (buildProps ⟨sub, d.resource_group_name, d.name⟩ d) = none ∧
      (api.get d.resource_group_name d.name "transformation").err = some m) ∧
    (∀ m, d.isNew = false →
      api.update d.resource_group_name d.name
        (buildProps ⟨sub, d.resource_group_name, d.name⟩ d) = some m →
      (resourceStreamAnalyticsJobCreateUpdate api sub d).1 =
        .error (.updating ⟨sub, d.resource_group_name, d.name⟩ m)) ∧
    (∀ e, (resourceStreamAnalyticsJobDelete api d).1 = .error e →
      e.wrappedWithIdAndOp = true ∨ ∃ em, e = .parseError em) ∧
    (∀ e, (resourceStreamAnalyticsJobRead api d).1 = .error e →
      e.wrappedWithIdAndOp = true ∨ ∃ em, e = .parseError em) := by
  refine ⟨?_, ?_, ?_, ?_⟩
  · intro m h
    unfold resourceStreamAnalyticsJobCreateUpdate at h
    rcases hnew : d.isNew <;> simp [hnew] at h
    · have hsrc := updatePath_rawGet_source api
        ⟨sub, d.resource_group_name, d.name⟩ d
        (buildProps ⟨sub, d.resource_group_name, d.name⟩ d)
        (buildTransformation d) m h
      exact ⟨rfl, hsrc.1, hsrc.2⟩
    · exact absurd h (createPath_no_rawGet api
        ⟨sub, d.resource_group_name, d.name⟩ d
        (buildProps ⟨sub, d.resource_group_name, d.name⟩ d)
        (buildTransformation d) m)
  · intro m hnew hupd
    unfold resourceStreamAnalyticsJobCreateUpdate
    simp only [hnew, if_neg, Bool.false_eq_true, not_false_iff, if_false]
    unfold updatePath
    rw [hupd]
  · intro e h
    unfold resourceStreamAnalyticsJobDelete at h
    rcases hp : StreamingJobID d.id with m0 | id0 <;> rw [hp] at h
    · simp at h
      exact Or.inr ⟨m0, h.symm⟩
    · rcases hd : (api.delete id0.resourceGroup id0.name).err with _ | m1 <;>
        simp [hd] at h
      · rcases hw : (api.delete id0.resourceGroup id0.name).waitErr
          with _ | m2 <;> simp [hw] at h
        exact Or.inl (by rw [← h]; rfl)
      · exact Or.inl (by rw [← h]; rfl)
  · intro e h
    rcases read_error_cases api d e h with ⟨m0, hm⟩ | ⟨i0, m0, hm⟩
    · exact Or.inr ⟨m0, hm⟩
    · exact Or.inl (by rw [hm]; rfl)

/-- Witness for api_errors_wrapped_except_readback: the bare error of the
failing readback stub indeed comes from the readback Get of the update
path. -/
theorem api_errors_wrapped_except_readback_witness :
    baseData.isNew = false ∧
    apiReadbackFails.update baseData.resource_group_name baseData.name
      (buildProps ⟨"sub1", baseData.resource_group_name, baseData.name⟩
        baseData) = none ∧
    (apiReadbackFails.get baseData.resource_group_name baseData.name
      "transformation").err = some "boom" :=
  (api_errors_wrapped_except_readback apiReadbackFails "sub1" baseData).1
    "boom" (by decide)

/-- The transformation sub-resource call recogniser. -/
def ApiCall.isTransformationUpdate : ApiCall → Bool
  | .transformationUpdate _ _ _ _ => true
  | _ => false

/-- Every call issued by the Read entry point is a Get with the
transformation expansion. -/
theorem read_calls_are_get (api : Api) (d : ResourceData) (c : ApiCall)
    (hc : c ∈ (resourceStreamAnalyticsJobRead api d).2) :
    ∃ rg n, c = .get rg n "transformation" := by
  unfold resourceStreamAnalyticsJobRead at hc
  rcases hp : StreamingJobID d.id with m | id <;> rw [hp] at hc
  · simp at hc
  · rcases herr : (api.get id.resourceGroup id.name "transformation").err
      with _ | m <;> simp [herr] at hc
    · exact ⟨_, _, hc⟩
    · split at hc <;> simp at hc <;> exact ⟨_, _, hc⟩

/-- The first call of the create branch is always the existence probe. -/
theorem createPath_head (api : Api) (id : StreamingJobId) (d : ResourceData)
    (props : StreamingJob) (t : Transformation) :
    (createPath api id d props t).2.head? =
      some (.get id.resourceGroup id.name "") := by
  unfold createPath
  rcases hpr : probeExisting api id with e | u <;> simp [hpr]
  rcases hcr : (api.createOrReplace id.resourceGroup id.name
      (props.withTransformation t)).err with _ | m <;> simp [hcr]
  rcases hw : (api.createOrReplace id.resourceGroup id.name
      (props.withTransformation t)).waitErr with _ | m2 <;>
    simp [hw, withCalls]

/-- When the probe reaches the identifier check and finds a non-empty
identifier, it fails with the import-as-exists conflict. -/
theorem probe_conflict (api : Api) (id : StreamingJobId)
    (h1 : ((api.get id.resourceGroup id.name "").err.isSome &&
      !responseWasNotFound (api.get id.resourceGroup id.name "").status)
        = false)
    (h2 : ((api.get id.resourceGroup id.name "").job.id.getD "" != "")
        = true) :
    probeExisting api id = .error (.importAsExists
      "azurerm_stream_analytics_job"
      ((api.get id.resourceGroup id.name "").job.id.getD "")) := by
  unfold probeExisting
  simp [h1, h2]

/-- C1: for every Create on a new resource the existence probe is the first
call issued, and when the probe finds an existing resource the invocation
returns the already-exists conflict having issued exactly the probe — in
particular no mutating call at all. -/
theorem create_probes_before_mutation (api : Api) (sub : String)
    (d : ResourceData) (hnew : d.isNew = true) :
    ((resourceStreamAnalyticsJobCreateUpdate api sub d).2.head? =
      some (.get d.resource_group_name d.name "")) ∧
    (((api.get d.resource_group_name d.name "").err.isSome &&
        !responseWasNotFound (api.get d.resource_group_name d.name "").status)
          = false →
      ((api.get d.resource_group_name d.name "").job.id.getD "" != "") = true →
      resourceStreamAnalyticsJobCreateUpdate api sub d =
        (.error (.importAsExists "azurerm_stream_analytics_job"
          ((api.get d.resource_group_name d.name "").job.id.getD "")),
         [.get d.resource_group_name d.name ""]) ∧
      (resourceStreamAnalyticsJobCreateUpdate api sub d).2.filter
        ApiCall.isMutating = []) := by
  constructor
  · unfold resourceStreamAnalyticsJobCreateUpdate
    simp only [hnew, if_true]
    exact createPath_head api ⟨sub, d.resource_group_name, d.name⟩ d _ _
  · intro h1 h2
    have hfull : resourceStreamAnalyticsJobCreateUpdate api sub d =
        (.error (.importAsExists "azurerm_stream_analytics_job"
          ((api.get d.resource_group_name d.name "").job.id.getD "")),
         [.get d.resource_group_name d.name ""]) := by
      unfold resourceStreamAnalyticsJobCreateUpdate
      simp only [hnew, if_true]
      unfold createPath
      rw [probe_conflict api ⟨sub, d.resource_group_name, d.name⟩ h1 h2]
    refine ⟨hfull, ?_⟩
    rw [hfull]
    rfl

/-- A stub API reporting an existing job body on every Get. -/
def apiExisting : Api :=
  { apiStub with
    get := fun _ _ _ => ⟨{ emptyJob with id := some "existing-id" }, 200, none⟩ }

/-- The configuration of a fresh (new) resource. -/
def newData : ResourceData :=
  { baseData with id := "", isNew := true }

/-- Witness for create_probes_before_mutation: against a stub that reports
an existing resource, Create conflicts after exactly one probe. -/
theorem create_probes_before_mutation_witness :
    resourceStreamAnalyticsJobCreateUpdate apiExisting "sub1" newData =
      (.error (.importAsExists "azurerm_stream_analytics_job" "existing-id"),
       [.get "rg1" "job1" ""]) ∧
    (resourceStreamAnalyticsJobCreateUpdate apiExisting "sub1" newData).2.filter
      ApiCall.isMutating = [] :=
  (create_probes_before_mutation apiExisting "sub1" newData rfl).2
    (by decide) (by decide)

/-- The first call of the update branch is always the parent update. -/
theorem updatePath_head (api : Api) (id : StreamingJobId) (d : ResourceData)
    (props : StreamingJob) (t : Transformation) :
    (updatePath api id d props t).2.head? =
      some (.update id.resourceGroup id.name props) := by
  unfold updatePath
  rcases hu : api.update id.resourceGroup id.name props with _ | m <;>
    simp [hu]
  rcases hg : (api.get id.resourceGroup id.name "transformation").err
    with _ | m2 <;> simp [hg]
  rcases ht : (api.get id.resourceGroup id.name "transformation").job.transformation
    with _ | rt <;> simp [ht, withCalls]
  rcases htu : api.transformationUpdate id.resourceGroup id.name
    (rt.name.getD "") t with _ | m3 <;> simp [htu, withCalls]

/-- A transformation sub-resource call is issued by the update branch only
when the parent update has succeeded. -/
theorem updatePath_tUpdate_after_success (api : Api) (id : StreamingJobId)
    (d : ResourceData) (props : StreamingJob) (t : Transformation)
    (c : ApiCall) (hc : c ∈ (updatePath api id d props t).2)
    (ht : c.isTransformationUpdate = true) :
    api.update id.resourceGroup id.name props = none := by
  cases hu : api.update id.resourceGroup id.name props with
  | none => rfl
  | some m =>
    exfalso
    unfold updatePath at hc
    rw [hu] at hc
    simp at hc
    rw [hc] at ht
    simp [ApiCall.isTransformationUpdate] at ht

/-- The create branch never touches the transformation sub-resource
endpoint: the transformation travels inline in the create payload. -/
theorem createPath_no_transformation_call (api : Api) (id : StreamingJobId)
    (d : ResourceData) (props : StreamingJob) (t : Transformation)
    (c : ApiCall) (hc : c ∈ (createPath api id d props t).2) :
    c.isTransformationUpdate = false := by
  unfold createPath at hc
  rcases hpr : probeExisting api id with e | u <;> rw [hpr] at hc
  · simp at hc
    simp [hc, ApiCall.isTransformationUpdate]
  · rcases hcr : (api.createOrReplace id.resourceGroup id.name
        (props.withTransformation t)).err with _ | m <;> simp [hcr] at hc
    · rcases hw : (api.createOrReplace id.resourceGroup id.name
          (props.withTransformation t)).waitErr with _ | m2 <;>
        simp [hw, withCalls] at hc
      · rcases hc with hc | hc | hc
        · simp [hc, ApiCall.isTransformationUpdate]
        · simp [hc, ApiCall.isTransformationUpdate]
        · obtain ⟨rg, n, hg⟩ := read_calls_are_get api
            { d with id := id.encode } c hc
          simp [hg, ApiCall.isTransformationUpdate]
      · rcases hc with hc | hc <;> simp [hc, ApiCall.isTransformationUpdate]
    · rcases hc with hc | hc <;> simp [hc, ApiCall.isTransformationUpdate]

/-- With a clean probe, the create branch issues the probe and then one
CreateOrReplace whose payload is the built properties with the
transformation grafted in. -/
theorem createPath_clean_probe_calls (api : Api) (id : StreamingJobId)
    (d : ResourceData) (props : StreamingJob) (t : Transformation)
    (hprobe : probeExisting api id = .ok ()) :
    (createPath api id d props t).2.take 2 =
      [.get id.resourceGroup id.name "",
       .createOrReplace id.resourceGroup id.name
         (props.withTransformation t)] := by
  unfold createPath
  rw [hprobe]
  rcases hcr : (api.createOrReplace id.resourceGroup id.name
      (props.withTransformation t)).err with _ | m <;> simp [hcr]
  rcases hw : (api.createOrReplace id.resourceGroup id.name
      (props.withTransformation t)).waitErr with _ | m2 <;>
    simp [hw, withCalls]

/-- C2: with an existing identifier the parent update is the first call and
the transformation sub-resource update is only ever issued after that
parent update succeeded; on a fresh Create no transformation sub-resource
call happens at all — the transformation is embedded inline in the single
create payload, which follows the probe. -/
theorem two_phase_update_and_inline_create (api : Api) (sub : String)
    (d : ResourceData) :
    (d.isNew = false →
      (resourceStreamAnalyticsJobCreateUpdate api sub d).2.head? =
        some (.update d.resource_group_name d.name
          (buildProps ⟨sub, d.resource_group_name, d.name⟩ d)) ∧
      ∀ c ∈ (resourceStreamAnalyticsJobCreateUpdate api sub d).2,
        c.isTransformationUpdate = true →
        api.update d.resource_group_name d.name
          (buildProps ⟨sub, d.resource_group_name, d.name⟩ d) = none) ∧
    (d.isNew = true →
      (∀ c ∈ (resourceStreamAnalyticsJobCreateUpdate api sub d).2,
        c.isTransformationUpdate = false) ∧
      ((buildProps ⟨sub, d.resource_group_name, d.name⟩ d).withTransformation
        (buildTransformation d)).transformation =
          some (buildTransformation d) ∧
      (probeExisting api ⟨sub, d.resource_group_name, d.name⟩ = .ok () →
        (resourceStreamAnalyticsJobCreateUpdate api sub d).2.take 2 =
          [.get d.resource_group_name d.name "",
           .createOrReplace d.resource_group_name d.name
             ((buildProps ⟨sub, d.resource_group_name, d.name⟩
               d).withTransformation (buildTransformation d))])) := by
  constructor
  · intro hnew
    unfold resourceStreamAnalyticsJobCreateUpdate
    simp only [hnew, Bool.false_eq_true, if_false]
    refine ⟨updatePath_head api ⟨sub, d.resource_group_name, d.name⟩ d _ _,
      ?_⟩
    intro c hc ht
    exact updatePath_tUpdate_after_success api
      ⟨sub, d.resource_group_name, d.name⟩ d _ _ c hc ht
  · intro hnew
    unfold resourceStreamAnalyticsJobCreateUpdate
    simp only [hnew, if_true]
    refine ⟨?_, rfl, ?_⟩
    · intro c hc
      exact createPath_no_transformation_call api
        ⟨sub, d.resource_group_name, d.name⟩ d _ _ c hc
    · intro hprobe
      exact createPath_clean_probe_calls api
        ⟨sub, d.resource_group_name, d.name⟩ d _ _ hprobe

/-- Witness for two_phase_update_and_inline_create: the update branch of the
success stub opens with the parent update call. -/
theorem two_phase_update_and_inline_create_witness :
    (resourceStreamAnalyticsJobCreateUpdate apiStub "sub1" baseData).2.head? =
      some (.update "rg1" "job1"
        (buildProps ⟨"sub1", "rg1", "job1"⟩ baseData)) :=
  ((two_phase_update_and_inline_create apiStub "sub1" baseData).1 rfl).1

/-- Witness for read_population_and_retention: the successful Read against
the data_locale-free stub returns exactly the populated state. -/
theorem read_population_and_retention_witness :
    resourceStreamAnalyticsJobRead apiDataLocaleAbsent baseData =
      (.ok (readPopulate baseData ⟨"sub1", "rg1", "job1"⟩ jobDataLocaleAbsent),
       [.get "rg1" "job1" "transformation"]) :=
  (read_population_and_retention apiDataLocaleAbsent baseData
    ⟨"sub1", "rg1", "job1"⟩ (by decide) rfl).1
